import Mathlib

/-!
Verification of the concert-search pipeline of `cursor_meetup_yay`.

The definitions below are a shallow embedding of
`src/cursor_meetup_yay/main.py` (the `mcp_server.py` copy of the scraper class
is line-for-line the same logic).  Pure Python functions become Lean
functions; the external Reddit client is modelled as an explicit value of a
function-typed structure, with `Except` for the exceptions the code catches;
`re.findall` is modelled by a small backtracking regex engine whose
enumeration order is Python's leftmost, greedy, alternation-in-order
backtracking order.  Logging and printing are elided.
-/

namespace CursorMeetup

/-! ## Python string primitives (ASCII semantics) -/

/-- Python `str.lower()` (ASCII range; the repository only folds ASCII). -/
def pyLower (s : String) : String := String.mk (s.data.map Char.toLower)

/-- Characters stripped by Python `str.strip()` / matched by `\s` (ASCII). -/
def pySpace (c : Char) : Bool :=
  c == ' ' || c == '\t' || c == '\n' || c == '\r' || c == '\x0b' || c == '\x0c'

/-- Python `str.strip()` (ASCII whitespace). -/
def pyStrip (s : String) : String :=
  String.mk (((s.data.dropWhile pySpace).reverse.dropWhile pySpace).reverse)

/-- Whether `sub` is a prefix of `hay` (helper for the substring test). -/
def listPrefixOf : List Char → List Char → Bool
  | [], _ => true
  | _ :: _, [] => false
  | a :: as, b :: bs => a == b && listPrefixOf as bs

/-- Whether `sub` occurs as a contiguous substring of `hay`. -/
def listContains : List Char → List Char → Bool
  | [], sub => sub.isEmpty
  | h :: t, sub => listPrefixOf sub (h :: t) || listContains t sub

/-- Python's `sub in hay` on strings (substring containment). -/
def strIn (sub hay : String) : Bool := listContains hay.data sub.data

/-! ## A regex engine for the eight `re.findall` patterns

The engine enumerates candidate match end positions in exactly Python's
backtracking priority order (greedy repetition longest-first, alternation
left-to-right, sequencing outer-first), so the head of the enumeration is
the match Python's `re` picks.  Stars only ever occur applied to
single-character classes in the source patterns, which `starCls` captures. -/

inductive Regex where
  | eps
  | cls (p : Char → Bool)
  | seq (a b : Regex)
  | alt (a b : Regex)
  | opt (a : Regex)
  | starCls (p : Char → Bool)

/-- Length of the maximal run of characters satisfying `p`. -/
def runLen (p : Char → Bool) : List Char → Nat
  | [] => 0
  | c :: rest => if p c then runLen p rest + 1 else 0

/-- All candidate end positions of a match of `r` starting at `i` in `s`,
in Python's backtracking priority order (the head is Python's choice). -/
def Regex.matchEnds : Regex → List Char → Nat → List Nat
  | .eps, _, i => [i]
  | .cls p, s, i =>
    match s[i]? with
    | some c => if p c then [i + 1] else []
    | none => []
  | .seq a b, s, i => (a.matchEnds s i).flatMap (fun j => b.matchEnds s j)
  | .alt a b, s, i => a.matchEnds s i ++ b.matchEnds s i
  | .opt a, s, i => a.matchEnds s i ++ [i]
  | .starCls p, s, i =>
    let k := runLen p (s.drop i)
    (List.range (k + 1)).map (fun t => i + (k - t))

/-- Candidate (group end, match end) pairs for a pattern split as
`(group)(rest)` — every source pattern's single capture group is a prefix of
the whole pattern — again in Python's priority order. -/
def matchPairs (grp post : Regex) (s : List Char) (i : Nat) : List (Nat × Nat) :=
  (grp.matchEnds s i).flatMap (fun g => (post.matchEnds s g).map (fun e => (g, e)))

/-- Python `re.findall` for a pattern split as `(group)(rest)`: scan positions
left to right, at the first position admitting a match emit the capture-group
slice and resume at the end of the whole match.  All source patterns consume
at least one character, so the `max e (i + 1)` guard equals `e`. -/
def findAllAux (grp post : Regex) (s : List Char) : Nat → Nat → List (List Char)
  | 0, _ => []
  | fuel + 1, i =>
    if i > s.length then []
    else
      match (matchPairs grp post s i).head? with
      | some (g, e) => ((s.drop i).take (g - i)) :: findAllAux grp post s fuel (max e (i + 1))
      | none => findAllAux grp post s fuel (i + 1)

/-- Python `re.findall(pattern, s, re.IGNORECASE)` where `pattern` has the
shape `(group)rest`; returns the capture-group texts, verbatim. -/
def findAll (grp post : Regex) (s : List Char) : List (List Char) :=
  findAllAux grp post s (s.length + 1) 0

/-! ### Pattern constructors (all compiled with `re.IGNORECASE`) -/

/-- A literal pattern character: case-insensitive comparison, as compiled
with `re.IGNORECASE`. -/
def lchar (ch : Char) : Regex := .cls (fun c => c.toLower == ch)

/-- A literal word, character by character. -/
def wordL : List Char → Regex
  | [] => .eps
  | c :: cs => .seq (lchar c) (wordL cs)

/-- A literal word from a string literal. -/
def word (w : String) : Regex := wordL w.data

/-- An alternation of literal words, tried left to right. -/
def altWords : List (List Char) → Regex
  | [] => .cls (fun _ => false)
  | w :: ws => .alt (wordL w) (altWords ws)

/-- `\d`. -/
def rdigit : Regex := .cls Char.isDigit

/-- `\s`. -/
def rws : Regex := .cls pySpace

/-- `\s+`. -/
def wsPlus : Regex := .seq rws (.starCls pySpace)

/-- `\s*`. -/
def wsStar : Regex := .starCls pySpace

/-- `\d{1,2}` (greedy: two digits preferred). -/
def d12 : Regex := .seq rdigit (.opt rdigit)

/-- `\d{2}`. -/
def d2 : Regex := .seq rdigit rdigit

/-- `\d{4}`. -/
def d4 : Regex := .seq rdigit (.seq rdigit (.seq rdigit rdigit))

/-- `\d{2,4}` (greedy: longer preferred). -/
def d24 : Regex := .seq rdigit (.seq rdigit (.opt (.seq rdigit (.opt rdigit))))

/-- The slash-or-dash character class. -/
def slashDash : Regex := .cls (fun c => c == '/' || c == '-')

/-- `[a-z]` under `re.IGNORECASE` (ASCII letters, either case). -/
def azChar (c : Char) : Bool := 'a' ≤ c.toLower && c.toLower ≤ 'z'

/-- The twelve full month names of date pattern 3's capture group. -/
def month_names : List String :=
  ["january", "february", "march", "april", "may", "june", "july",
   "august", "september", "october", "november", "december"]

/-- `(january|february|...|december)` — the capture group of date pattern 3. -/
def month_name_regex : Regex := altWords (month_names.map (fun m => m.data))

/-- `(?:jan|feb|mar|apr|may|jun|jul|aug|sep|oct|nov|dec)` of date pattern 4. -/
def month_abbrev_regex : Regex :=
  altWords (["jan", "feb", "mar", "apr", "may", "jun", "jul", "aug",
             "sep", "oct", "nov", "dec"].map (fun m => m.data))

/-- Date pattern 1: slash-or-dash separated `\d{1,2}`, `\d{1,2}`, `\d{2,4}`. -/
def date_pat1 : Regex :=
  .seq d12 (.seq slashDash (.seq d12 (.seq slashDash d24)))

/-- Date pattern 2: slash-or-dash separated `\d{4}`, `\d{1,2}`, `\d{1,2}`. -/
def date_pat2 : Regex :=
  .seq d4 (.seq slashDash (.seq d12 (.seq slashDash d12)))

/-- Date pattern 3, part after the capture group: `\s+\d{1,2},?\s+\d{4}`. -/
def date_pat3_rest : Regex :=
  .seq wsPlus (.seq d12 (.seq (.opt (.cls (fun c => c == ','))) (.seq wsPlus d4)))

/-- Date pattern 4:
`(\d{1,2}\s+(?:jan|feb|mar|apr|may|jun|jul|aug|sep|oct|nov|dec)[a-z]*\s+\d{4})`. -/
def date_pat4 : Regex :=
  .seq d12 (.seq wsPlus (.seq month_abbrev_regex
    (.seq (.starCls azChar) (.seq wsPlus d4))))

/-- `(?:am|pm|AM|PM)`: under `re.IGNORECASE` the upper-case branches repeat
the lower-case ones, so they never alter the chosen (head) match. -/
def ampm : Regex := .alt (word "am") (word "pm")

/-- Time pattern 1: `(\d{1,2}:\d{2}\s*(?:am|pm|AM|PM)?)`. -/
def time_pat1 : Regex :=
  .seq d12 (.seq (.cls (fun c => c == ':')) (.seq d2 (.seq wsStar (.opt ampm))))

/-- Time pattern 2: `(\d{1,2}\s*(?:am|pm|AM|PM))`. -/
def time_pat2 : Regex := .seq d12 (.seq wsStar ampm)

/-- Time pattern 3: `(doors?\s+(?:at\s+)?\d{1,2}:\d{2})`. -/
def time_pat3 : Regex :=
  .seq (word "door") (.seq (.opt (lchar 's')) (.seq wsPlus
    (.seq (.opt (.seq (word "at") wsPlus))
      (.seq d12 (.seq (.cls (fun c => c == ':')) d2)))))

/-- Time pattern 4: `(show\s+(?:at\s+)?\d{1,2}:\d{2})`. -/
def time_pat4 : Regex :=
  .seq (word "show") (.seq wsPlus
    (.seq (.opt (.seq (word "at") wsPlus))
      (.seq d12 (.seq (.cls (fun c => c == ':')) d2))))

/-- The `date_patterns` list of `_extract_concert_info`, as
(capture group, rest-of-pattern) pairs. -/
def date_patterns : List (Regex × Regex) :=
  [(date_pat1, .eps), (date_pat2, .eps), (month_name_regex, date_pat3_rest),
   (date_pat4, .eps)]

/-- The `time_patterns` list of `_extract_concert_info`. -/
def time_patterns : List (Regex × Regex) :=
  [(time_pat1, .eps), (time_pat2, .eps), (time_pat3, .eps), (time_pat4, .eps)]

/-- The `dates` accumulation loop: `for pattern in date_patterns:
dates.extend(re.findall(pattern, text, re.IGNORECASE))`. -/
def extract_dates (text : List Char) : List String :=
  date_patterns.foldl (fun dates p => dates ++ (findAll p.1 p.2 text).map String.mk) []

/-- The `times` accumulation loop of `_extract_concert_info`. -/
def extract_times (text : List Char) : List String :=
  time_patterns.foldl (fun times p => times ++ (findAll p.1 p.2 text).map String.mk) []

/-- The contribution of date pattern 3 alone (its `re.findall` output). -/
def dates_pattern3 (text : List Char) : List String :=
  (findAll month_name_regex date_pat3_rest text).map String.mk

/-- The FieldExtractor contract `extract(title, body) -> (dates, times)`:
lines 226–235 of `main.py`, on `text = f"{submission.title} {submission.selftext}"`. -/
def extract (title body : String) : List String × List String :=
  let text := (title ++ " " ++ body).data
  (extract_dates text, extract_times text)

/-! ## Data model -/

/-- A raw provider result (`praw` submission), the fields the core reads.
`author = none` models a deleted/unavailable author (`None` in Python). -/
structure Submission where
  id : String
  title : String
  selftext : String
  subreddit : String
  score : Int
  created_utc : Nat
  permalink : String
  author : Option String
deriving DecidableEq, Repr

/-- The report record built by `_extract_concert_info` (lines 237–247).
`created_utc` keeps the raw epoch seconds: the Python code renders it via
`datetime.fromtimestamp(...).isoformat()`, a local-timezone formatting step
no claim depends on. -/
structure ExtractInfo where
  title : String
  url : String
  subreddit : String
  score : Int
  created_utc : Nat
  text : String
  dates_found : List String
  times_found : List String
  author : String
deriving DecidableEq, Repr

/-- `RedditConcertScraper._extract_concert_info` (lines 209–247). -/
def extract_concert_info (sm : Submission) : ExtractInfo :=
  let text := (sm.title ++ " " ++ sm.selftext).data
  { title := sm.title
    url := "https://reddit.com" ++ sm.permalink
    subreddit := sm.subreddit
    score := sm.score
    created_utc := sm.created_utc
    text := if sm.selftext.length > 500 then sm.selftext.take 500 ++ "..." else sm.selftext
    dates_found := extract_dates text
    times_found := extract_times text
    author := match sm.author with | some a => a | none => "[deleted]" }

/-! ## SearchTermGenerator -/

/-- The fixed vocabulary `concert_terms` (line 166). -/
def concert_terms : List String :=
  ["concert", "show", "tour", "festival", "setlist", "live"]

/-- `RedditConcertScraper._generate_search_terms` (lines 159–172).  Python's
`if location:` is truthiness: `None` and `""` both skip the location terms. -/
def generate_search_terms (artist : String) (location : Option String) : List String :=
  let base : List String := [artist]
  let base : List String :=
    match location with
    | some loc => if loc = "" then base else base ++ [artist ++ " " ++ loc, loc ++ " " ++ artist]
    | none => base
  concert_terms.foldl (fun ts term =>
    let ts := ts ++ [artist ++ " " ++ term, term ++ " " ++ artist]
    match location with
    | some loc =>
      if loc = "" then ts
      else ts ++ [artist ++ " " ++ term ++ " " ++ loc, loc ++ " " ++ artist ++ " " ++ term]
    | none => ts) base

/-! ## RelevancePredicate -/

/-- The `concert_keywords` list (lines 188–193). -/
def concert_keywords : List String :=
  ["concert", "show", "tour", "festival", "setlist", "live",
   "venue", "tickets", "date", "time", "schedule", "lineup",
   "performance", "gig", "event", "appearance", "playing", "stage",
   "music", "song", "album", "release", "new", "upcoming", "announced"]

/-- The always-relevant subreddit list inside `_is_relevant_post` (line 203). -/
def relevant_concert_subreddits : List String :=
  ["concert", "edm", "livemusic", "UMF", "setlist", "festivals"]

/-- `RedditConcertScraper._is_relevant_post` (lines 174–207). -/
def is_relevant_post (sm : Submission) (artist : String) (location : Option String) : Bool :=
  let text := pyLower (sm.title ++ " " ++ sm.selftext)
  let artist_lower := pyLower artist
  if !strIn artist_lower text then false
  else if (match location with
           | some loc => !(loc == "") && !strIn (pyLower loc) text
           | none => false) then false
  else if concert_keywords.any (fun k => strIn k text) then true
  else if (relevant_concert_subreddits.map pyLower).contains (pyLower sm.subreddit) then true
  else false

/-! ## SearchOrchestrator -/

/-- The fixed 10-channel list `CONCERT_SUBREDDITS` (lines 34–45). -/
def CONCERT_SUBREDDITS : List String :=
  ["concert", "edm", "livemusic", "UMF", "setlist",
   "festivals", "electronicmusic", "aves", "edmprodcirclejerk", "electronicdancemusic"]

/-- The setlist-route channel list (line 332). -/
def setlist_subreddits : List String := ["setlist", "concert", "edm", "livemusic", "UMF"]

/-- The EDM-route channel list (line 383). -/
def edm_subreddits : List String :=
  ["edm", "UMF", "electronicmusic", "aves", "festivals", "edmprodcirclejerk"]

/-- A subreddit handle: `search(query, time_filter, limit)`, which may raise
(the code catches the exception and skips the query/channel). -/
structure Subreddit where
  search : String → String → Nat → Except String (List Submission)

/-- The external Reddit client: `subreddit(name)` may raise. -/
structure RedditClient where
  subreddit : String → Except String Subreddit

/-- One submission of the general per-channel loop (lines 127–144): skip when
`submission.id in seen_posts`, otherwise add the id to the seen set and
append the `_extract_concert_info` record. -/
def record_step (st : List String × List ExtractInfo) (sm : Submission) :
    List String × List ExtractInfo :=
  if st.1.contains sm.id then st
  else (st.1 ++ [sm.id], st.2 ++ [extract_concert_info sm])

/-- `record_step` with the accepted submission itself as payload. -/
def dedup_step (st : List String × List Submission) (sm : Submission) :
    List String × List Submission :=
  if st.1.contains sm.id then st else (st.1 ++ [sm.id], st.2 ++ [sm])

/-- One query of the general per-channel loop: search with
`time_filter="all", limit=10`, skipping the query when the provider raises. -/
def query_step (sub : Subreddit) (st : List String × List ExtractInfo) (q : String) :
    List String × List ExtractInfo :=
  match sub.search q "all" 10 with
  | .error _ => st
  | .ok subs => subs.foldl record_step st

/-- `query_step` with submissions as payload. -/
def query_step_subs (sub : Subreddit) (st : List String × List Submission) (q : String) :
    List String × List Submission :=
  match sub.search q "all" 10 with
  | .error _ => st
  | .ok subs => subs.foldl dedup_step st

/-- The per-channel accumulation of `search_concerts` (lines 114–148): up to
the first 3 search terms, each searched with `time_filter="all", limit=10`;
a failing query is skipped; results are deduplicated against the channel's
`seen_posts` set and appended unfiltered as `_extract_concert_info` records. -/
def channel_search (sub : Subreddit) (search_terms : List String) : List ExtractInfo :=
  ((search_terms.take 3).foldl (query_step sub) ([], [])).2

/-- The same per-channel loop, recording the accepted submissions themselves
(in place of their `_extract_concert_info` records). -/
def channel_accepted (sub : Subreddit) (search_terms : List String) : List Submission :=
  ((search_terms.take 3).foldl (query_step_subs sub) ([], [])).2

/-- Everything the provider returns for a channel: the concatenation of the
successful queries' result lists, in query order (failed queries contribute
nothing). -/
def provider_results (sub : Subreddit) (search_terms : List String) : List Submission :=
  (search_terms.take 3).flatMap (fun q =>
    match sub.search q "all" 10 with
    | .ok subs => subs
    | .error _ => [])

/-- Keep the first occurrence of each `id`, dropping later re-surfacings. -/
def dedupFirst (l : List Submission) : List Submission :=
  (l.foldl dedup_step ([], [])).2

/-- A value of the heterogeneous dict `search_concerts` returns: the error
shape maps `"error"` to a message string, the success shape maps subreddit
names to record lists. -/
inductive DictVal where
  | str (s : String)
  | records (l : List ExtractInfo)
deriving DecidableEq, Repr

/-- One channel of `search_concerts` (lines 111–155): a raising
`subreddit(name)` skips the channel; a channel with no records is omitted
from the returned mapping. -/
def concerts_channel_step (client : RedditClient) (search_terms : List String)
    (results : List (String × DictVal)) (name : String) : List (String × DictVal) :=
  match client.subreddit name with
  | .error _ => results
  | .ok sub =>
    let recs := channel_search sub search_terms
    if recs.isEmpty then results else results ++ [(name, DictVal.records recs)]

/-- `RedditConcertScraper.search_concerts` (lines 103–157): general mode.
`date_range` is accepted and unused, as in the source. -/
def search_concerts (reddit : Option RedditClient) (artist : String)
    (location : Option String) (date_range : String) : List (String × DictVal) :=
  match reddit with
  | none => [("error", DictVal.str "Reddit API not initialized. Please check credentials.")]
  | some client =>
    let search_terms := generate_search_terms artist location
    CONCERT_SUBREDDITS.foldl (concerts_channel_step client search_terms) []

/-! ## HTTP route shims (`/api/setlist`, `/api/edm`) -/

/-- A route's JSON reply: the success payload's `results` mapping, or an
error message with its HTTP status code. -/
inductive ApiResponse where
  | success (results : List (String × List ExtractInfo))
  | err (msg : String) (status : Nat)
deriving DecidableEq, Repr

/-- Whether a reply is the error shape. -/
def ApiResponse.isErrorReply : ApiResponse → Bool
  | .err _ _ => true
  | .success _ => false

/-- `location = location.strip() or None` (and likewise `venue`/`festival`):
normalise an optional field, mapping a blank string to absence. -/
def normOptField (o : Option String) : Option String :=
  match o with
  | some v => let v := pyStrip v; if v = "" then none else some v
  | none => none

/-- The inner accumulation of `get_setlist` (lines 344–346): keep a result
iff `"setlist"` occurs in its lower-cased title or lower-cased body. -/
def setlist_channel_results (subs : List Submission) : List ExtractInfo :=
  subs.foldl (fun acc sm =>
    if strIn "setlist" (pyLower sm.title) || strIn "setlist" (pyLower sm.selftext)
    then acc ++ [extract_concert_info sm] else acc) []

/-- The inner accumulation of `search_edm` (lines 397–399): keep a result iff
`_is_relevant_post` holds. -/
def edm_channel_results (subs : List Submission) (artist : String)
    (location : Option String) : List ExtractInfo :=
  subs.foldl (fun acc sm =>
    if is_relevant_post sm artist location
    then acc ++ [extract_concert_info sm] else acc) []

/-- The `/api/setlist` route `get_setlist` (lines 318–364).  Each channel's
body runs under `try: ... except: continue`; when the client is absent
(`reddit_scraper.reddit is None`), `None.subreddit(name)` raises and the
channel is silently skipped, so the route still answers with the success
shape. -/
def get_setlist (reddit : Option RedditClient) (artist0 : String)
    (venue0 : Option String) : ApiResponse :=
  let artist := pyStrip artist0
  let venue := normOptField venue0
  if artist = "" then ApiResponse.err "Artist name is required" 400
  else
    let search_query := artist ++ " setlist" ++ (match venue with | some v => " " ++ v | none => "")
    let results := setlist_subreddits.foldl (fun results name =>
      match reddit with
      | none => results
      | some client =>
        match client.subreddit name with
        | .error _ => results
        | .ok sub =>
          match sub.search search_query "month" 5 with
          | .error _ => results
          | .ok subs =>
            let recs := setlist_channel_results subs
            if recs.isEmpty then results else results ++ [(name, recs)]) []
    ApiResponse.success results

/-- The `/api/edm` route `search_edm` (lines 366–418); the same per-channel
exception handling as `get_setlist`. -/
def search_edm (reddit : Option RedditClient) (artist0 : String)
    (festival0 : Option String) (location0 : Option String) : ApiResponse :=
  let artist := pyStrip artist0
  let festival := normOptField festival0
  let location := normOptField location0
  if artist = "" then ApiResponse.err "Artist name is required" 400
  else
    let search_query := artist
      ++ (match festival with | some f => " " ++ f | none => "")
      ++ (match location with | some l => " " ++ l | none => "")
    let results := edm_subreddits.foldl (fun results name =>
      match reddit with
      | none => results
      | some client =>
        match client.subreddit name with
        | .error _ => results
        | .ok sub =>
          match sub.search search_query "month" 5 with
          | .error _ => results
          | .ok subs =>
            let recs := edm_channel_results subs artist location
            if recs.isEmpty then results else results ++ [(name, recs)]) []
    ApiResponse.success results

/-- A concrete client whose every subreddit lookup fails, used to exercise
the connected-but-unreachable case. -/
def stub_client : RedditClient := ⟨fun _ => Except.error "unavailable"⟩

/-- A concrete submission for exercising the predicates. -/
def witness_sub : Submission :=
  { id := "abc1", title := "Great night out", selftext := "we had fun",
    subreddit := "edm", score := 5, created_utc := 1700000000,
    permalink := "/r/edm/abc1", author := none }

/-! ## Theorems -/

/-- The head of a list is a member. -/
theorem mem_of_head?_eq {α : Type} {l : List α} {a : α} (h : l.head? = some a) : a ∈ l := by
  cases l with
  | nil => simp at h
  | cons x xs =>
    simp only [List.head?] at h
    rw [Option.some.injEq] at h
    exact h ▸ List.mem_cons_self x xs

/-- Every element emitted by the findall scanner is the capture-group slice
of a chosen (head-of-enumeration) match at some position. -/
theorem findAllAux_shape (grp post : Regex) (s : List Char) :
    ∀ (fuel i : Nat) (x : List Char), x ∈ findAllAux grp post s fuel i →
      ∃ j g e, (matchPairs grp post s j).head? = some (g, e) ∧
        x = (s.drop j).take (g - j) := by
  intro fuel
  induction fuel with
  | zero => intro i x hx; simp [findAllAux] at hx
  | succ n ih =>
    intro i x hx
    rw [findAllAux] at hx
    split at hx
    · simp at hx
    · split at hx
      case _ g e heq =>
        rcases List.mem_cons.mp hx with rfl | hx'
        · exact ⟨i, g, e, heq, rfl⟩
        · exact ih _ _ hx'
      case _ heq => exact ih _ _ hx

/-- Membership in the pattern-accumulation loop comes from the initial
accumulator or from one pattern's findall output. -/
theorem mem_pattern_loop {text : List Char} {x : String} :
    ∀ {pats : List (Regex × Regex)} {acc : List String},
      x ∈ pats.foldl (fun acc p => acc ++ (findAll p.1 p.2 text).map String.mk) acc →
      x ∈ acc ∨ ∃ p ∈ pats, x ∈ (findAll p.1 p.2 text).map String.mk := by
  intro pats
  induction pats with
  | nil => intro acc h; exact Or.inl h
  | cons p ps ih =>
    intro acc h
    rcases ih h with h' | h'
    · rcases List.mem_append.mp h' with h2 | h2
      · exact Or.inl h2
      · exact Or.inr ⟨p, List.mem_cons_self p ps, h2⟩
    · obtain ⟨q, hq, hx⟩ := h'
      exact Or.inr ⟨q, List.mem_cons_of_mem p hq, hx⟩

/-- A `take`-of-`drop` slice sits contiguously inside the original list. -/
theorem slice_decomp (s : List Char) (j k : Nat) :
    ∃ pre post, pre ++ (s.drop j).take k ++ post = s :=
  ⟨s.take j, (s.drop j).drop k, by
    rw [List.append_assoc, List.take_append_drop, List.take_append_drop]⟩

/-- Every string produced by a pattern-accumulation loop is a contiguous
slice of the scanned text. -/
theorem mem_pattern_loop_slice {text : List Char} {pats : List (Regex × Regex)}
    {d : String}
    (h : d ∈ pats.foldl (fun acc p => acc ++ (findAll p.1 p.2 text).map String.mk) []) :
    ∃ j k, d.data = (text.drop j).take k := by
  rcases mem_pattern_loop h with h' | ⟨p, _, hx⟩
  · simp at h'
  · obtain ⟨w, hw, rfl⟩ := List.mem_map.mp hx
    obtain ⟨j, g, e, _, rfl⟩ := findAllAux_shape p.1 p.2 text _ _ w hw
    exact ⟨j, g - j, rfl⟩

/-- A match of a literal word ends exactly one word-length later, and the
matched slice case-folds to the word. -/
theorem wordL_matchEnds {s : List Char} :
    ∀ {w : List Char} {i g : Nat}, g ∈ (wordL w).matchEnds s i →
      g = i + w.length ∧ ((s.drop i).take w.length).map Char.toLower = w := by
  intro w
  induction w with
  | nil =>
    intro i g h
    simp only [wordL, Regex.matchEnds, List.mem_singleton] at h
    simp [h]
  | cons c cs ih =>
    intro i g h
    simp only [wordL, Regex.matchEnds, lchar] at h
    rcases List.mem_flatMap.mp h with ⟨j, hj, hg⟩
    rcases hch : s[i]? with _ | ch
    · simp only [hch] at hj
      simp at hj
    · simp only [hch] at hj
      by_cases hcl : (ch.toLower == c) = true
      · rw [if_pos hcl] at hj
        rw [List.mem_singleton] at hj
        subst hj
        obtain ⟨hg', hslice⟩ := ih hg
        obtain ⟨hlt, hget⟩ := List.getElem?_eq_some.mp hch
        refine ⟨by simp [hg']; omega, ?_⟩
        rw [List.drop_eq_getElem_cons hlt, hget, List.length_cons, List.take_succ_cons,
          List.map_cons, hslice, beq_iff_eq.mp hcl]
      · rw [if_neg hcl] at hj
        simp at hj

/-- A match of an alternation of literal words is a match of one of them. -/
theorem altWords_matchEnds {s : List Char} :
    ∀ {L : List (List Char)} {i g : Nat}, g ∈ (altWords L).matchEnds s i →
      ∃ w ∈ L, g = i + w.length ∧ ((s.drop i).take w.length).map Char.toLower = w := by
  intro L
  induction L with
  | nil =>
    intro i g h
    simp only [altWords, Regex.matchEnds] at h
    rcases hch : s[i]? with _ | ch <;> simp only [hch] at h <;> simp at h
  | cons w ws ih =>
    intro i g h
    simp only [altWords, Regex.matchEnds] at h
    rcases List.mem_append.mp h with h' | h'
    · obtain ⟨hg, hs⟩ := wordL_matchEnds h'
      exact ⟨w, List.mem_cons_self w ws, hg, hs⟩
    · obtain ⟨w', hw', hrest⟩ := ih h'
      exact ⟨w', List.mem_cons_of_mem w hw', hrest⟩

/-- C5: with no location, `_generate_search_terms` returns exactly the 13
terms `[X]` followed, for each vocabulary term `t` in order, by the
space-joined `X t` and `t X`. -/
theorem claim_C5 (X : String) (hX : X ≠ "") :
    generate_search_terms X none =
      [X, X ++ " " ++ "concert", "concert" ++ " " ++ X,
       X ++ " " ++ "show", "show" ++ " " ++ X,
       X ++ " " ++ "tour", "tour" ++ " " ++ X,
       X ++ " " ++ "festival", "festival" ++ " " ++ X,
       X ++ " " ++ "setlist", "setlist" ++ " " ++ X,
       X ++ " " ++ "live", "live" ++ " " ++ X] ∧
    (generate_search_terms X none).length = 13 :=
  ⟨rfl, rfl⟩

/-- Witness for C5 at the artist `"Daft Punk"`. -/
theorem claim_C5_witness :
    generate_search_terms "Daft Punk" none =
      ["Daft Punk", "Daft Punk" ++ " " ++ "concert", "concert" ++ " " ++ "Daft Punk",
       "Daft Punk" ++ " " ++ "show", "show" ++ " " ++ "Daft Punk",
       "Daft Punk" ++ " " ++ "tour", "tour" ++ " " ++ "Daft Punk",
       "Daft Punk" ++ " " ++ "festival", "festival" ++ " " ++ "Daft Punk",
       "Daft Punk" ++ " " ++ "setlist", "setlist" ++ " " ++ "Daft Punk",
       "Daft Punk" ++ " " ++ "live", "live" ++ " " ++ "Daft Punk"] ∧
    (generate_search_terms "Daft Punk" none).length = 13 :=
  claim_C5 "Daft Punk" (by decide)

/-- C4 fails as stated: with a present location the generator yields 27
terms (1 + 2 + 6·4), not 37. -/
theorem claim_C4_counterexample :
    (generate_search_terms "X" (some "Y")).length = 27 ∧
    (generate_search_terms "X" (some "Y")).length ≠ 37 :=
  ⟨rfl, by decide⟩

/-- C4 (amended): for every non-empty artist and present (non-empty)
location, the generator returns exactly 27 terms. -/
theorem claim_C4 (X Y : String) (hX : X ≠ "") (hY : Y ≠ "") :
    (generate_search_terms X (some Y)).length = 27 := by
  simp [generate_search_terms, concert_terms, hY]

/-- Witness for C4 (amended). -/
theorem claim_C4_witness :
    (generate_search_terms "Daft Punk" (some "Miami")).length = 27 :=
  claim_C4 "Daft Punk" "Miami" (by decide) (by decide)

/-- C3 fails as stated: the extractor's times for that title are not
`["9:30pm", "8:00"]` (time pattern 1 keeps the trailing whitespace it
greedily consumed before the optional am/pm, time pattern 2 also matches
`"30pm"`, and patterns 3 and 4 re-extract both times). -/
theorem claim_C3_counterexample :
    (extract "Show at 9:30pm, doors at 8:00" "").2 ≠ ["9:30pm", "8:00"] := by
  decide

/-- C3 (amended): on title `"Show at 9:30pm, doors at 8:00"` with empty body
the extractor's times are exactly `["9:30pm", "8:00 ", "30pm",
"doors at 8:00", "Show at 9:30"]`, pattern by pattern in document order. -/
theorem claim_C3 :
    (extract "Show at 9:30pm, doors at 8:00" "").2 =
      ["9:30pm", "8:00 ", "30pm", "doors at 8:00", "Show at 9:30"] := by
  decide

/-- C2 fails as stated: a match of date pattern 3 contributes only its
capture group — the bare month name — to the dates, not the complete
matched substring with day and year. -/
theorem claim_C2_counterexample :
    (extract "january 5, 2024" "").1 = ["january"] ∧
    "january 5, 2024" ∉ (extract "january 5, 2024" "").1 := by
  exact ⟨by decide, by decide⟩

/-- C1 fails as stated: with the provider connection absent, the setlist
route does not return a ConfigurationError — the per-channel handler
swallows the failure and the route answers with the success shape and an
empty results mapping. -/
theorem claim_C1_counterexample :
    get_setlist none "Daft Punk" none = ApiResponse.success [] ∧
    ApiResponse.isErrorReply (get_setlist none "Daft Punk" none) = false :=
  ⟨rfl, rfl⟩

/-- C1 (amended): with the provider connection absent, only the general-mode
orchestrator returns the ConfigurationError value; the setlist and edm
routes swallow the per-channel failures and return a success value with an
empty results mapping. -/
theorem claim_C1 :
    (∀ (artist : String) (location : Option String) (dr : String),
       search_concerts none artist location dr =
         [("error", DictVal.str "Reddit API not initialized. Please check credentials.")]) ∧
    (∀ (artist : String) (venue : Option String), pyStrip artist ≠ "" →
       get_setlist none artist venue = ApiResponse.success []) ∧
    (∀ (artist : String) (festival location : Option String), pyStrip artist ≠ "" →
       search_edm none artist festival location = ApiResponse.success []) := by
  refine ⟨fun artist location dr => rfl, fun artist venue h => ?_,
    fun artist festival location h => ?_⟩
  · simp [get_setlist, h, setlist_subreddits]
  · simp [search_edm, h, edm_subreddits]

/-- Witness for C1 (amended) at concrete calls. -/
theorem claim_C1_witness :
    search_concerts none "Daft Punk" (some "Miami") "30" =
      [("error", DictVal.str "Reddit API not initialized. Please check credentials.")] ∧
    get_setlist none "Daft Punk" none = ApiResponse.success [] ∧
    search_edm none "Daft Punk" none (some "Miami") = ApiResponse.success [] :=
  ⟨claim_C1.1 "Daft Punk" (some "Miami") "30",
   claim_C1.2.1 "Daft Punk" none (by decide),
   claim_C1.2.2 "Daft Punk" none (some "Miami") (by decide)⟩

/-- C8: whenever the case-folded artist is absent from the case-folded
`title + " " + body`, `_is_relevant_post` answers false, whatever the other
fields hold. -/
theorem claim_C8 (sm : Submission) (artist : String) (location : Option String)
    (h : strIn (pyLower artist) (pyLower (sm.title ++ " " ++ sm.selftext)) = false) :
    is_relevant_post sm artist location = false := by
  simp [is_relevant_post, h]

/-- Witness for C8: an artist name absent from the post text. -/
theorem claim_C8_witness : is_relevant_post witness_sub "zzz" none = false :=
  claim_C8 witness_sub "zzz" none (by decide)

/-- C9: every extracted date and time string is a verbatim contiguous
substring of `title + " " + body`. -/
theorem claim_C9 (title body : String) :
    (∀ d ∈ (extract title body).1,
       ∃ pre post, pre ++ d.data ++ post = (title ++ " " ++ body).data) ∧
    (∀ t ∈ (extract title body).2,
       ∃ pre post, pre ++ t.data ++ post = (title ++ " " ++ body).data) := by
  constructor
  · intro d hd
    obtain ⟨j, k, hjk⟩ :=
      @mem_pattern_loop_slice ((title ++ " " ++ body).data) date_patterns d hd
    rw [hjk]
    exact slice_decomp _ j k
  · intro t ht
    obtain ⟨j, k, hjk⟩ :=
      @mem_pattern_loop_slice ((title ++ " " ++ body).data) time_patterns t ht
    rw [hjk]
    exact slice_decomp _ j k

/-- Witness for C9 at a concrete extraction. -/
theorem claim_C9_witness :
    ∃ pre post, pre ++ "9am".data ++ post = ("Show 9am" ++ " " ++ "").data :=
  (claim_C9 "Show 9am" "").2 "9am" (by decide)

/-- C2 fails as stated because pattern 3's capture group spans only the month
name; what actually holds (amended): pattern 3's matches contribute, in
order and as one contiguous block between pattern 2's and pattern 4's
contributions, only their month-name capture — each contributed string
case-folds to one of the twelve full month names. -/
theorem claim_C2 (title body : String) :
    (∃ pre post, (extract title body).1 =
       pre ++ dates_pattern3 ((title ++ " " ++ body).data) ++ post) ∧
    (∀ d ∈ dates_pattern3 ((title ++ " " ++ body).data),
       d.data.map Char.toLower ∈ month_names.map (fun m => m.data)) := by
  constructor
  · refine ⟨(findAll date_pat1 .eps ((title ++ " " ++ body).data)).map String.mk ++
      (findAll date_pat2 .eps ((title ++ " " ++ body).data)).map String.mk,
      (findAll date_pat4 .eps ((title ++ " " ++ body).data)).map String.mk, ?_⟩
    simp [extract, extract_dates, date_patterns, dates_pattern3]
  · intro d hd
    obtain ⟨w, hw, rfl⟩ := List.mem_map.mp hd
    obtain ⟨j, g, e, hhead, rfl⟩ :=
      findAllAux_shape month_name_regex date_pat3_rest _ _ _ w hw
    have hmem : (g, e) ∈ matchPairs month_name_regex date_pat3_rest
        ((title ++ " " ++ body).data) j := mem_of_head?_eq hhead
    rcases List.mem_flatMap.mp hmem with ⟨g', hg', hpair⟩
    obtain ⟨e', _, heq⟩ := List.mem_map.mp hpair
    have hg : g' = g := (Prod.mk.injEq _ _ _ _ ▸ heq).1
    subst hg
    obtain ⟨w', hw', hlen, hslice⟩ := altWords_matchEnds hg'
    rcases List.mem_map.mp hw' with ⟨m, hm, rfl⟩
    have hk : g' - j = m.data.length := by omega
    rw [hk, hslice]
    exact List.mem_map.mpr ⟨m, hm, rfl⟩

/-- Witness for C2 (amended): the contribution of `"january 5, 2024"`. -/
theorem claim_C2_witness :
    "january".data.map Char.toLower ∈ month_names.map (fun m => m.data) :=
  (claim_C2 "january 5, 2024" "").2 "january" (by decide)

/-- An `if accepted then append the transform` loop is filter-then-map. -/
theorem foldl_accept_eq_filter_map {α β : Type} (p : α → Bool) (f : α → β) :
    ∀ (l : List α) (acc : List β),
      l.foldl (fun a x => if p x then a ++ [f x] else a) acc =
        acc ++ (l.filter p).map f := by
  intro l
  induction l with
  | nil => intro acc; simp
  | cons x xs ih =>
    intro acc
    by_cases hp : p x = true <;>
      simp [List.filter_cons, hp, ih, List.append_assoc]

/-- The record-payload dedup fold tracks the submission-payload fold: same
seen set, and records are the map of the accepted submissions. -/
theorem record_fold_eq_map (subs : List Submission) :
    ∀ (seen : List String) (accs : List Submission),
      subs.foldl record_step (seen, accs.map extract_concert_info) =
        ((subs.foldl dedup_step (seen, accs)).1,
         (subs.foldl dedup_step (seen, accs)).2.map extract_concert_info) := by
  induction subs with
  | nil => intro seen accs; simp
  | cons sm rest ih =>
    intro seen accs
    simp only [List.foldl_cons, record_step, dedup_step]
    by_cases h : (seen.contains sm.id) = true
    · rw [if_pos h, if_pos h]
      exact ih seen accs
    · rw [if_neg h, if_neg h]
      have := ih (seen ++ [sm.id]) (accs ++ [sm])
      simpa [List.map_append] using this

/-- Query-level version of `record_fold_eq_map`. -/
theorem query_fold_eq_map (sub : Subreddit) (qs : List String) :
    ∀ (seen : List String) (accs : List Submission),
      qs.foldl (query_step sub) (seen, accs.map extract_concert_info) =
        ((qs.foldl (query_step_subs sub) (seen, accs)).1,
         (qs.foldl (query_step_subs sub) (seen, accs)).2.map extract_concert_info) := by
  induction qs with
  | nil => intro seen accs; simp
  | cons q rest ih =>
    intro seen accs
    simp only [List.foldl_cons, query_step, query_step_subs]
    cases sub.search q "all" 10 with
    | error e => dsimp only; exact ih seen accs
    | ok subs =>
      dsimp only
      rw [record_fold_eq_map]
      exact ih _ _

/-- The channel's record list is the map of its accepted submissions. -/
theorem channel_search_eq_map (sub : Subreddit) (ts : List String) :
    channel_search sub ts = (channel_accepted sub ts).map extract_concert_info := by
  unfold channel_search channel_accepted
  have := query_fold_eq_map sub (ts.take 3) [] []
  simp only [List.map_nil] at this
  rw [this]

/-- Folding the dedup step query by query equals folding it over the
concatenation of the successful queries' results. -/
theorem queries_fold_eq_flat (sub : Subreddit) :
    ∀ (qs : List String) (st : List String × List Submission),
      qs.foldl (query_step_subs sub) st =
        (qs.flatMap (fun q =>
          match sub.search q "all" 10 with
          | .ok subs => subs
          | .error _ => [])).foldl dedup_step st := by
  intro qs
  induction qs with
  | nil => intro st; simp
  | cons q rest ih =>
    intro st
    simp only [List.foldl_cons, List.flatMap_cons, List.foldl_append]
    rw [← ih]
    congr 1
    unfold query_step_subs
    cases sub.search q "all" 10 <;> simp

/-- The channel's accepted submissions are the first-occurrence dedup of all
provider results for that channel. -/
theorem channel_accepted_eq_dedup (sub : Subreddit) (ts : List String) :
    channel_accepted sub ts = dedupFirst (provider_results sub ts) := by
  unfold channel_accepted dedupFirst provider_results
  rw [queries_fold_eq_flat]

/-- The dedup fold keeps every accepted id inside the seen set and never
accepts the same id twice. -/
theorem dedup_fold_invariant (l : List Submission) :
    ∀ (seen : List String) (acc : List Submission),
      (∀ sm ∈ acc, sm.id ∈ seen) → (acc.map Submission.id).Nodup →
      (∀ sm ∈ (l.foldl dedup_step (seen, acc)).2,
         sm.id ∈ (l.foldl dedup_step (seen, acc)).1) ∧
      ((l.foldl dedup_step (seen, acc)).2.map Submission.id).Nodup := by
  induction l with
  | nil => intro seen acc h1 h2; exact ⟨h1, h2⟩
  | cons sm rest ih =>
    intro seen acc h1 h2
    simp only [List.foldl_cons, dedup_step]
    by_cases h : (seen.contains sm.id) = true
    · rw [if_pos h]
      exact ih seen acc h1 h2
    · rw [if_neg h]
      apply ih
      · intro x hx
        rcases List.mem_append.mp hx with hx' | hx'
        · exact List.mem_append.mpr (Or.inl (h1 x hx'))
        · rw [List.mem_singleton] at hx'
          subst hx'
          exact List.mem_append.mpr (Or.inr (List.mem_singleton.mpr rfl))
      · rw [List.map_append, List.nodup_append]
        refine ⟨h2, by simp, ?_⟩
        intro a ha hb
        simp only [List.map_cons, List.map_nil, List.mem_singleton] at hb
        subst hb
        rcases List.mem_map.mp ha with ⟨x, hx, hxx⟩
        have : sm.id ∈ seen := hxx ▸ h1 x hx
        exact h (List.elem_eq_true_of_mem this)

/-- The accepted ids of one channel are pairwise distinct. -/
theorem channel_accepted_nodup (sub : Subreddit) (ts : List String) :
    ((channel_accepted sub ts).map Submission.id).Nodup := by
  rw [channel_accepted_eq_dedup]
  unfold dedupFirst
  exact (dedup_fold_invariant (provider_results sub ts) [] []
    (by intro sm h; simp at h) (by simp)).2

/-- C6: the per-mode acceptance policies — general mode turns every distinct
(first-occurrence-deduplicated) provider result into a record with no
relevance filtering; setlist mode keeps a result iff `"setlist"` occurs
case-insensitively in its title or its body; edm mode keeps a result iff
`_is_relevant_post` holds. -/
theorem claim_C6 :
    (∀ (sub : Subreddit) (ts : List String),
       channel_search sub ts =
         (dedupFirst (provider_results sub ts)).map extract_concert_info) ∧
    (∀ subs : List Submission,
       setlist_channel_results subs =
         ((subs.filter (fun sm =>
             strIn "setlist" (pyLower sm.title) || strIn "setlist" (pyLower sm.selftext))).map
           extract_concert_info)) ∧
    (∀ (subs : List Submission) (artist : String) (location : Option String),
       edm_channel_results subs artist location =
         ((subs.filter (fun sm => is_relevant_post sm artist location)).map
           extract_concert_info)) := by
  refine ⟨fun sub ts => ?_, fun subs => ?_, fun subs artist location => ?_⟩
  · rw [channel_search_eq_map, channel_accepted_eq_dedup]
  · unfold setlist_channel_results
    rw [foldl_accept_eq_filter_map]
    simp
  · unfold edm_channel_results
    rw [foldl_accept_eq_filter_map]
    simp

/-- C7: in general mode each channel's final record sequence is the image of
an accepted-submission list whose result identifiers are pairwise distinct,
so each identifier yields at most one record however many of the channel's
queries re-surface it. -/
theorem claim_C7 (sub : Subreddit) (ts : List String) :
    channel_search sub ts = (channel_accepted sub ts).map extract_concert_info ∧
    ((channel_accepted sub ts).map Submission.id).Nodup :=
  ⟨channel_search_eq_map sub ts, channel_accepted_nodup sub ts⟩

/-- Keys produced by the general-mode channel fold come from the initial
accumulator or from the channel-name list. -/
theorem concerts_fold_keys (client : RedditClient) (ts : List String) :
    ∀ (l : List String) (acc : List (String × DictVal)) (k : String),
      k ∈ (l.foldl (concerts_channel_step client ts) acc).map Prod.fst →
      k ∈ acc.map Prod.fst ∨ k ∈ l := by
  intro l
  induction l with
  | nil => intro acc k h; exact Or.inl h
  | cons n rest ih =>
    intro acc k h
    rcases ih _ k h with h' | h'
    · unfold concerts_channel_step at h'
      rcases hsub : client.subreddit n with e | sub
      · rw [hsub] at h'
        exact Or.inl h'
      · rw [hsub] at h'
        simp only at h'
        by_cases hrec : (channel_search sub ts).isEmpty = true
        · rw [if_pos hrec] at h'
          exact Or.inl h'
        · rw [if_neg hrec] at h'
          rw [List.map_append, List.mem_append] at h'
          rcases h' with h'' | h''
          · exact Or.inl h''
          · rw [List.map_cons, List.map_nil, List.mem_singleton] at h''
            exact Or.inr (h'' ▸ List.mem_cons_self n rest)
    · exact Or.inr (List.mem_cons_of_mem n h')

/-- C10: a general-mode return is one of two disjoint shapes — with the
client absent, a mapping whose only key is `"error"`; with a client present,
a mapping whose keys all lie in the fixed 10-channel list, which does not
contain `"error"` — so testing for the key `"error"` classifies every
return. -/
theorem claim_C10 (reddit : Option RedditClient) (artist : String)
    (location : Option String) (dr : String) :
    (reddit = none →
       (search_concerts reddit artist location dr).map Prod.fst = ["error"]) ∧
    (∀ client, reddit = some client →
       (∀ k ∈ (search_concerts reddit artist location dr).map Prod.fst,
          k ∈ CONCERT_SUBREDDITS) ∧
       "error" ∉ (search_concerts reddit artist location dr).map Prod.fst) ∧
    "error" ∉ CONCERT_SUBREDDITS := by
  refine ⟨fun h => by subst h; rfl, fun client h => ?_, by decide⟩
  subst h
  have hkeys : ∀ k ∈ (search_concerts (some client) artist location dr).map Prod.fst,
      k ∈ CONCERT_SUBREDDITS := by
    intro k hk
    unfold search_concerts at hk
    rcases concerts_fold_keys client (generate_search_terms artist location)
      CONCERT_SUBREDDITS [] k hk with h' | h'
    · simp at h'
    · exact h'
  refine ⟨hkeys, fun herr => ?_⟩
  have : "error" ∈ CONCERT_SUBREDDITS := hkeys _ herr
  revert this
  decide

/-- Witness for C10 at both shapes. -/
theorem claim_C10_witness :
    (search_concerts none "X" none "30").map Prod.fst = ["error"] ∧
    "error" ∉ (search_concerts (some stub_client) "X" none "30").map Prod.fst :=
  ⟨(claim_C10 none "X" none "30").1 rfl,
   ((claim_C10 (some stub_client) "X" none "30").2.1 stub_client rfl).2⟩

end CursorMeetup
